import Mathlib

/-!
Verification of the ORBIT email-automation batch tool (send_emails.py).

The development shallowly embeds the record-extraction and delivery
pipeline: spreadsheet rows → normalized key/value mapping → validated
record → subject/message → transport → per-file outcome list.

Conventions of the embedding:
* A spreadsheet cell is `Option String`; `none` models a blank cell
  (pandas `NaN`, where `pd.notna` is false).
* Python `str.strip()` is `strTrim`, `str.lower()`/`str.upper()` are
  `strLower`/`strUpper`, `"@" in s` is `strContainsChar s`; these are
  defined over the character list so that they evaluate in the kernel.
* Side-effecting transports are modelled as pure functions from an
  explicit environment (is win32com importable, is the SMTP server
  reachable, does the banner file exist) to `Option SentMessage`, where
  `none` is the Python function returning `False` (all exceptions in the
  send path are caught there and converted to `False`) and
  `some m` is a successful handoff of message `m` (returning `True`).
-/

namespace Orbit

/-- Python `str.strip()`: remove whitespace from both ends.  Defined over
the character list so that it evaluates inside the kernel. -/
def strTrim (s : String) : String :=
  ⟨((s.data.dropWhile Char.isWhitespace).reverse.dropWhile Char.isWhitespace).reverse⟩

/-- Python `c in s` for a single character `c`. -/
def strContainsChar (s : String) (c : Char) : Bool :=
  s.data.contains c

/-- Python `str.lower()` (ASCII range, which covers every string the
program compares). -/
def strLower (s : String) : String :=
  ⟨s.data.map Char.toLower⟩

/-- Python `str.upper()` (ASCII range, which covers every string the
program compares). -/
def strUpper (s : String) : String :=
  ⟨s.data.map Char.toUpper⟩

/-- One spreadsheet cell as seen by `parse_xlsx`; `none` is a blank/NaN
cell. -/
abbrev Cell := Option String

/-- A spreadsheet row: the list of its cells. -/
abbrev Row := List Cell

/-- The configuration values of `config.py` that the embedded code
reads. -/
structure Config where
  EMAIL_DOMAIN : String
  SEND_METHOD : String
  CC_EMAIL : String
deriving DecidableEq, Repr

/-- The record returned by `parse_xlsx` (send_emails.py lines 89–95). -/
structure Record where
  file : String
  ritm : String
  aide_id : String
  aide_name : String
  to_email : String
deriving DecidableEq, Repr

/-- `key = str(row.iloc[0]).strip() if pd.notna(row.iloc[0]) else ""`
(send_emails.py line 69). -/
def rowKey (r : Row) : String :=
  match r.getD 0 none with
  | some s => strTrim s
  | none => ""

/-- `val = str(row.iloc[1]).strip() if len(row) > 1 and pd.notna(row.iloc[1])
else ""` (send_emails.py line 70). -/
def rowVal (r : Row) : String :=
  if r.length > 1 then
    match r.getD 1 none with
    | some s => strTrim s
    | none => ""
  else ""

/-- The guard `if key and val and val.lower() not in ("nan", "")` of
send_emails.py line 71. -/
def rowAdmissible (r : Row) : Bool :=
  rowKey r ≠ "" && rowVal r ≠ "" &&
    !(strLower (rowVal r) == "nan" || strLower (rowVal r) == "")

/-- The loop of send_emails.py lines 66–72: fold the rows into a
key→value mapping, `data[key] = val` overwriting earlier entries.  The
mapping is an association list where the most recent binding is at the
head, so `dataGet` (first match) realizes last-seen-wins. -/
def buildData (rows : List Row) : List (String × String) :=
  rows.foldl
    (fun data r => if rowAdmissible r then (rowKey r, rowVal r) :: data else data)
    []

/-- `data.get(key, "")`: the most recently stored value for `key`, or the
empty string. -/
def dataGet (data : List (String × String)) (k : String) : String :=
  match data.find? (fun p => p.1 == k) with
  | some p => p.2
  | none => ""

/-- send_emails.py lines 74–95: read the four required fields out of the
mapping, fail (return `none`) if any is empty, otherwise resolve the
recipient address and build the record. -/
def parseRows (cfg : Config) (fname : String) (rows : List Row) : Option Record :=
  let data := buildData rows
  let ritm := dataGet data "RITM"
  let aide_id := dataGet data "AIDE_ID"
  let aide_name := dataGet data "AIDE NAME"
  let app_owner_raw := dataGet data "Application Owner"
  if ritm ≠ "" ∧ aide_id ≠ "" ∧ aide_name ≠ "" ∧ app_owner_raw ≠ "" then
    let to_email :=
      if strContainsChar app_owner_raw '@' then app_owner_raw
      else app_owner_raw ++ "@" ++ cfg.EMAIL_DOMAIN
    some { file := fname, ritm := ritm, aide_id := aide_id,
           aide_name := aide_name, to_email := to_email }
  else
    none

/-- An input file as `parse_xlsx` sees it: either `pd.read_excel` raises
(unreadable/corrupt document, lines 60–64) or it yields a row table. -/
inductive XlsxFile where
  | unreadable
  | doc (rows : List Row)
deriving DecidableEq, Repr

/-- The whole of `parse_xlsx` (send_emails.py lines 54–95): `none` both
when the document cannot be opened and when required fields are
missing. -/
def parse_xlsx (cfg : Config) (fname : String) : XlsxFile → Option Record
  | .unreadable => none
  | .doc rows => parseRows cfg fname rows

/-- The subject line built in `send_via_outlook` (send_emails.py lines
253–256). -/
def subject_outlook (r : Record) : String :=
  "Welcome to ORBIT Power BI - Your Guide to Getting Started - " ++
    ("[" ++ r.ritm ++ "]" ++ "[" ++ r.aide_id ++ "]" ++ "[" ++ r.aide_name ++ "]")

/-- The subject line built in `send_via_smtp` (send_emails.py lines
281–284). -/
def subject_smtp (r : Record) : String :=
  "Welcome to ORBIT Power BI - Your Guide to Getting Started - " ++
    ("[" ++ r.ritm ++ "]" ++ "[" ++ r.aide_id ++ "]" ++ "[" ++ r.aide_name ++ "]")

/-- A message as handed off to the mail-sending mechanism: recipient,
optional CC, subject, and whether the banner image part made it in. -/
structure SentMessage where
  mail_to : String
  cc : Option String
  subject : String
  has_banner : Bool
deriving DecidableEq, Repr

/-- The external circumstances `send_via_outlook` depends on: whether
win32com imports, whether the Outlook automation surface works
(Dispatch/CreateItem/Send), and whether the banner file exists. -/
structure OutlookEnv where
  win32_available : Bool
  outlook_ok : Bool
  banner_exists : Bool
deriving DecidableEq, Repr

/-- The external circumstances `send_via_smtp` depends on: whether the
banner file exists and whether connect/starttls/login/sendmail all
succeed. -/
structure SmtpEnv where
  banner_exists : Bool
  smtp_ok : Bool
deriving DecidableEq, Repr

/-- send_emails.py lines 238–271.  `ImportError` on win32com returns
`False`; every exception in the send block — including the COM error
`Attachments.Add` raises when the banner file is absent (line 259) — is
caught by the blanket `except` of line 269 and also returns `False`.
Only when all steps succeed is the message sent (with the banner always
attached, since `Attachments.Add` ran before `Send`). -/
def send_via_outlook (env : OutlookEnv) (cfg : Config) (r : Record) :
    Option SentMessage :=
  if !env.win32_available then none
  else if !env.outlook_ok then none
  else if !env.banner_exists then none
  else
    some { mail_to := r.to_email,
           cc := if cfg.CC_EMAIL ≠ "" then some cfg.CC_EMAIL else none,
           subject := subject_outlook r,
           has_banner := true }

/-- send_emails.py lines 275–321.  A missing banner file raises
`FileNotFoundError`, which is caught at line 304 and only drops the
image part; any failure in the SMTP conversation is caught at line 319
and returns `False`. -/
def send_via_smtp (env : SmtpEnv) (cfg : Config) (r : Record) :
    Option SentMessage :=
  let msg : SentMessage :=
    { mail_to := r.to_email,
      cc := if cfg.CC_EMAIL ≠ "" then some cfg.CC_EMAIL else none,
      subject := subject_smtp r,
      has_banner := env.banner_exists }
  if env.smtp_ok then some msg else none

/-- The two transport variants. -/
inductive Transport where
  | outlook
  | smtp
deriving DecidableEq, Repr

/-- The transport dispatch `if cfg.SEND_METHOD.upper() == "OUTLOOK" ...
else ...` of send_emails.py lines 355–358. -/
def chooseTransport (send_method : String) : Transport :=
  if strUpper send_method == "OUTLOOK" then Transport.outlook else Transport.smtp

/-- The per-send environment of one loop iteration of `main`. -/
structure TransportEnv where
  outlook : OutlookEnv
  smtp : SmtpEnv
deriving DecidableEq, Repr

/-- The boolean `ok` of send_emails.py lines 355–358: run the configured
transport on the record. -/
def sendOk (cfg : Config) (env : TransportEnv) (r : Record) : Bool :=
  match chooseTransport cfg.SEND_METHOD with
  | Transport.outlook => (send_via_outlook env.outlook cfg r).isSome
  | Transport.smtp => (send_via_smtp env.smtp cfg r).isSome

/-- One row of the results CSV (send_emails.py lines 350–352 and
360–362). -/
structure Outcome where
  file : String
  ritm : String
  aide_id : String
  aide_name : String
  to_email : String
  status : String
  error : String
deriving DecidableEq, Repr

/-- One input document of a run: its file name, its content as
`pd.read_excel` delivers it, and the state of the outside world (mail
client, SMTP server, banner file) at the moment this file is
processed. -/
structure InputCase where
  name : String
  content : XlsxFile
  env : TransportEnv
deriving DecidableEq, Repr

/-- One iteration of the loop of send_emails.py lines 346–362: the
outcome appended to `results`, paired with whether a transport send was
attempted (the `send_via_*` call is reached only when `parse_xlsx`
returned a record). -/
def stepA (cfg : Config) (i : InputCase) : Outcome × Bool :=
  match parse_xlsx cfg i.name i.content with
  | none =>
      ({ file := i.name, ritm := "", aide_id := "", aide_name := "",
         to_email := "", status := "SKIPPED", error := "Missing required fields" },
       false)
  | some r =>
      (if sendOk cfg i.env r then
        { file := r.file, ritm := r.ritm, aide_id := r.aide_id,
          aide_name := r.aide_name, to_email := r.to_email,
          status := "SENT", error := "" }
       else
        { file := r.file, ritm := r.ritm, aide_id := r.aide_id,
          aide_name := r.aide_name, to_email := r.to_email,
          status := "FAILED", error := "See log" },
       true)

/-- The outcome recorded for one input document. -/
def step (cfg : Config) (i : InputCase) : Outcome :=
  (stepA cfg i).1

/-- The `results` list of `main` (send_emails.py lines 336–364): one
outcome per input document, in order. -/
def mainRun (cfg : Config) (files : List InputCase) : List Outcome :=
  files.map (step cfg)

/-! Concrete fixtures used by witnesses and counterexamples. -/

/-- A configuration with the SMTP transport and no CC. -/
def cfgS : Config := { EMAIL_DOMAIN := "corp.com", SEND_METHOD := "SMTP", CC_EMAIL := "" }

/-- A world where both transports and the banner file are available. -/
def envAllOk : TransportEnv :=
  { outlook := { win32_available := true, outlook_ok := true, banner_exists := true },
    smtp := { banner_exists := true, smtp_ok := true } }

/-- A world where the SMTP conversation fails (e.g. unreachable host). -/
def envSmtpFail : TransportEnv :=
  { outlook := { win32_available := true, outlook_ok := true, banner_exists := true },
    smtp := { banner_exists := true, smtp_ok := false } }

/-- The spec's worked example sheet: all four required fields present. -/
def rowsFull : List Row :=
  [[some "RITM", some "REQ1"],
   [some "AIDE_ID", some "A100"],
   [some "AIDE NAME", some "Finance App"],
   [some "Application Owner", some "nkelly13"]]

/-- The same sheet with the `AIDE_ID` row removed. -/
def rowsNoAide : List Row :=
  [[some "RITM", some "REQ1"],
   [some "AIDE NAME", some "Finance App"],
   [some "Application Owner", some "nkelly13"]]

/-- The same sheet with the `RITM` row removed. -/
def rowsNoRitm : List Row :=
  [[some "AIDE_ID", some "A100"],
   [some "AIDE NAME", some "Finance App"],
   [some "Application Owner", some "nkelly13"]]

/-- The record `parse_xlsx` extracts from `rowsFull` under `cfgS` for a
file named `a.xlsx`. -/
def recA : Record :=
  { file := "a.xlsx", ritm := "REQ1", aide_id := "A100",
    aide_name := "Finance App", to_email := "nkelly13@corp.com" }

/-- Input document `a.xlsx`: complete sheet, healthy world. -/
def inA : InputCase := { name := "a.xlsx", content := XlsxFile.doc rowsFull, env := envAllOk }

/-- Input document `b.xlsx`: complete sheet, but its SMTP send fails. -/
def inB : InputCase := { name := "b.xlsx", content := XlsxFile.doc rowsFull, env := envSmtpFail }

/-- Input document `c.xlsx`: complete sheet, healthy world. -/
def inC : InputCase := { name := "c.xlsx", content := XlsxFile.doc rowsFull, env := envAllOk }

/-- The record `parse_xlsx` extracts from `rowsFull` for `b.xlsx`. -/
def recB : Record :=
  { file := "b.xlsx", ritm := "REQ1", aide_id := "A100",
    aide_name := "Finance App", to_email := "nkelly13@corp.com" }

/-- Input document `a.xlsx` with the `AIDE_ID` row missing. -/
def inNoAide : InputCase := { name := "a.xlsx", content := XlsxFile.doc rowsNoAide, env := envAllOk }

/-- Input document `b.xlsx` with the `RITM` row missing. -/
def inNoRitm : InputCase := { name := "b.xlsx", content := XlsxFile.doc rowsNoRitm, env := envAllOk }

/-- An input document `pd.read_excel` cannot open. -/
def inBad : InputCase := { name := "bad.xlsx", content := XlsxFile.unreadable, env := envAllOk }

/-! A second mapping builder written to the spec's words rather than the
source, used only to compare the two on the point where they differ. -/

/-- The spec's key of a row: the first non-empty cell (after trimming,
blank/absent cells treated as empty strings). -/
def specRowKey (r : Row) : String :=
  (((r.map (fun c => strTrim (c.getD ""))).filter (fun s => s ≠ "")).getD 0 "")

/-- The spec's value of a row: the cell following the spec's key, i.e.
the second non-empty cell (after trimming). -/
def specRowVal (r : Row) : String :=
  (((r.map (fun c => strTrim (c.getD ""))).filter (fun s => s ≠ "")).getD 1 "")

/-- The mapping contract as the spec words it: first non-empty cell of a
row is the key, the next is the value, trimmed, last-seen wins,
case-insensitively discarding the `nan` placeholder. -/
def buildData_spec (rows : List Row) : List (String × String) :=
  rows.foldl
    (fun data r =>
      let key := specRowKey r
      let val := specRowVal r
      if key ≠ "" && val ≠ "" && !(strLower val == "nan" || strLower val == "") then
        (key, val) :: data
      else data)
    []

/-- A row whose first cell is blank: the spec's reading and the code
disagree on it. -/
def rowShifted : Row := [none, some "RITM", some "X"]

/-! Theorems. -/

/-- C1: for every extracted record, if the raw owner field contains `@`
then the recipient address is the raw owner unchanged, otherwise it is
the raw owner followed by `@` and the configured `EMAIL_DOMAIN`. -/
theorem C1_recipient_resolution (cfg : Config) (fname : String) (rows : List Row)
    (r : Record) (h : parseRows cfg fname rows = some r) :
    (strContainsChar (dataGet (buildData rows) "Application Owner") '@' = true →
      r.to_email = dataGet (buildData rows) "Application Owner") ∧
    (strContainsChar (dataGet (buildData rows) "Application Owner") '@' = false →
      r.to_email = dataGet (buildData rows) "Application Owner" ++ "@" ++ cfg.EMAIL_DOMAIN) := by
  simp only [parseRows] at h
  split at h
  · constructor
    · intro hc
      simp only [hc, if_true] at h
      cases h
      rfl
    · intro hc
      simp only [hc, Bool.false_eq_true, if_false] at h
      cases h
      rfl
  · exact absurd h (by simp)

/-- Witness for C1 at the spec's worked example (`nkelly13`, domain
`corp.com`). -/
theorem C1_witness :
    parseRows cfgS "a.xlsx" rowsFull = some recA ∧
    ((strContainsChar (dataGet (buildData rowsFull) "Application Owner") '@' = true →
        recA.to_email = dataGet (buildData rowsFull) "Application Owner") ∧
      (strContainsChar (dataGet (buildData rowsFull) "Application Owner") '@' = false →
        recA.to_email =
          dataGet (buildData rowsFull) "Application Owner" ++ "@" ++ cfgS.EMAIL_DOMAIN)) :=
  ⟨by decide, C1_recipient_resolution cfgS "a.xlsx" rowsFull recA (by decide)⟩

/-- C2: `parse_xlsx` materializes a record exactly when all four
required fields are non-empty in the normalized mapping (values are
trimmed and non-empty by construction of the mapping), and the record it
returns carries those very field values — never a partial record. -/
theorem C2_record_iff_required_fields (cfg : Config) (fname : String) (rows : List Row) :
    ((parseRows cfg fname rows).isSome ↔
      (dataGet (buildData rows) "RITM" ≠ "" ∧
       dataGet (buildData rows) "AIDE_ID" ≠ "" ∧
       dataGet (buildData rows) "AIDE NAME" ≠ "" ∧
       dataGet (buildData rows) "Application Owner" ≠ "")) ∧
    (∀ r : Record, parseRows cfg fname rows = some r →
      r.file = fname ∧
      r.ritm = dataGet (buildData rows) "RITM" ∧
      r.aide_id = dataGet (buildData rows) "AIDE_ID" ∧
      r.aide_name = dataGet (buildData rows) "AIDE NAME" ∧
      r.ritm ≠ "" ∧ r.aide_id ≠ "" ∧ r.aide_name ≠ "") := by
  constructor
  · simp only [parseRows]
    split
    · rename_i hcond
      simp [hcond]
    · rename_i hcond
      simpa using hcond
  · intro r h
    simp only [parseRows] at h
    split at h
    · rename_i hcond
      cases h
      exact ⟨rfl, rfl, rfl, rfl, hcond.1, hcond.2.1, hcond.2.2.1⟩
    · exact absurd h (by simp)

/-- Witness for C2 at the spec's worked example. -/
theorem C2_witness :
    ((parseRows cfgS "a.xlsx" rowsFull).isSome ↔
      (dataGet (buildData rowsFull) "RITM" ≠ "" ∧
       dataGet (buildData rowsFull) "AIDE_ID" ≠ "" ∧
       dataGet (buildData rowsFull) "AIDE NAME" ≠ "" ∧
       dataGet (buildData rowsFull) "Application Owner" ≠ "")) ∧
    (recA.file = "a.xlsx" ∧
     recA.ritm = dataGet (buildData rowsFull) "RITM" ∧
     recA.aide_id = dataGet (buildData rowsFull) "AIDE_ID" ∧
     recA.aide_name = dataGet (buildData rowsFull) "AIDE NAME" ∧
     recA.ritm ≠ "" ∧ recA.aide_id ≠ "" ∧ recA.aide_name ≠ "") :=
  ⟨(C2_record_iff_required_fields cfgS "a.xlsx" rowsFull).1,
   (C2_record_iff_required_fields cfgS "a.xlsx" rowsFull).2 recA (by decide)⟩

/-- C5: both transports build the same subject: the fixed prefix
followed by the bracketed ticket, case id and case name; on the spec's
worked example the subject is exactly the quoted string. -/
theorem C5_subject_format :
    (∀ r : Record, subject_smtp r = subject_outlook r) ∧
    (∀ r : Record, subject_outlook r =
      "Welcome to ORBIT Power BI - Your Guide to Getting Started - " ++
        ("[" ++ r.ritm ++ "]" ++ "[" ++ r.aide_id ++ "]" ++ "[" ++ r.aide_name ++ "]")) ∧
    subject_outlook recA =
      "Welcome to ORBIT Power BI - Your Guide to Getting Started - [REQ1][A100][Finance App]" ∧
    subject_smtp recA =
      "Welcome to ORBIT Power BI - Your Guide to Getting Started - [REQ1][A100][Finance App]" :=
  ⟨fun _ => rfl, fun _ => rfl, by decide, by decide⟩

/-- C10: transport selection depends only on the upper-cased
`SEND_METHOD`; any value whose upper-case form is not `OUTLOOK` selects
the SMTP transport (the selection is total, so no value is rejected). -/
theorem C10_transport_selection :
    (∀ m₁ m₂ : String, strUpper m₁ = strUpper m₂ → chooseTransport m₁ = chooseTransport m₂) ∧
    (∀ m : String, strUpper m = "OUTLOOK" → chooseTransport m = Transport.outlook) ∧
    (∀ m : String, strUpper m ≠ "OUTLOOK" → chooseTransport m = Transport.smtp) ∧
    chooseTransport "outlook" = Transport.outlook ∧
    chooseTransport "OutLook" = Transport.outlook ∧
    chooseTransport "OUTLOOKK" = Transport.smtp ∧
    chooseTransport "smpt" = Transport.smtp ∧
    chooseTransport "" = Transport.smtp := by
  refine ⟨?_, ?_, ?_, by decide, by decide, by decide, by decide, by decide⟩
  · intro m₁ m₂ h
    simp [chooseTransport, h]
  · intro m h
    simp [chooseTransport, h]
  · intro m h
    simp [chooseTransport, h]

/-- Witness for C10: the case-insensitive match and the
everything-else-is-SMTP rule, each applied at a concrete value. -/
theorem C10_witness :
    chooseTransport "oUtLoOk" = Transport.outlook ∧
    chooseTransport "SMTPX" = Transport.smtp :=
  ⟨C10_transport_selection.2.1 "oUtLoOk" (by decide),
   C10_transport_selection.2.2.1 "SMTPX" (by decide)⟩

/-- Every outcome `step` produces carries one of the three statuses. -/
theorem step_status_mem (cfg : Config) (i : InputCase) :
    (step cfg i).status = "SENT" ∨ (step cfg i).status = "FAILED" ∨
      (step cfg i).status = "SKIPPED" := by
  unfold step stepA
  cases hp : parse_xlsx cfg i.name i.content with
  | none => simp
  | some r =>
      by_cases hs : sendOk cfg i.env r
      · simp [hs]
      · simp [hs]

/-- A list of outcomes whose statuses all lie in the three-element status
set is counted exactly once by the three status counters together. -/
theorem countP_three_statuses (l : List Outcome)
    (h : ∀ o ∈ l, o.status = "SENT" ∨ o.status = "FAILED" ∨ o.status = "SKIPPED") :
    l.countP (fun o => o.status == "SENT") + l.countP (fun o => o.status == "FAILED") +
      l.countP (fun o => o.status == "SKIPPED") = l.length := by
  induction l with
  | nil => simp
  | cons o t ih =>
      have ho := h o (List.mem_cons_self o t)
      have ht : ∀ x ∈ t, x.status = "SENT" ∨ x.status = "FAILED" ∨ x.status = "SKIPPED" :=
        fun x hx => h x (List.mem_cons_of_mem o hx)
      have ihh := ih ht
      rcases ho with h1 | h1 | h1 <;> simp [List.countP_cons, h1] <;> omega

/-- C6: one outcome per input document, every status is `SENT`, `FAILED`
or `SKIPPED`, and the per-status counts add up to the number of
outcomes. -/
theorem C6_outcome_accounting (cfg : Config) (files : List InputCase) :
    (mainRun cfg files).length = files.length ∧
    (mainRun cfg files).all
      (fun o => o.status == "SENT" || o.status == "FAILED" || o.status == "SKIPPED") = true ∧
    (mainRun cfg files).countP (fun o => o.status == "SENT") +
      (mainRun cfg files).countP (fun o => o.status == "FAILED") +
      (mainRun cfg files).countP (fun o => o.status == "SKIPPED") =
      (mainRun cfg files).length := by
  have hmem : ∀ o ∈ mainRun cfg files,
      o.status = "SENT" ∨ o.status = "FAILED" ∨ o.status = "SKIPPED" := by
    intro o ho
    rcases List.mem_map.1 ho with ⟨i, _, rfl⟩
    exact step_status_mem cfg i
  refine ⟨by simp [mainRun], ?_, countP_three_statuses _ hmem⟩
  rw [List.all_eq_true]
  intro o ho
  rcases hmem o ho with h | h | h <;> simp [h]

/-- Counterexample to C3: two documents missing different required
fields (`AIDE_ID` in one, `RITM` in the other) receive outcomes with the
identical error text `Missing required fields`; the text does not even
mention the missing field, so the outcome's error does not name the
specific missing fields. -/
theorem C3_counterexample :
    (step cfgS inNoAide).status = "SKIPPED" ∧
    (step cfgS inNoRitm).status = "SKIPPED" ∧
    (step cfgS inNoAide).error = "Missing required fields" ∧
    (step cfgS inNoAide).error = (step cfgS inNoRitm).error ∧
    ¬ List.IsInfix "AIDE_ID".data (step cfgS inNoAide).error.data := by
  decide

/-- C3 amended: a document with missing required fields gets a SKIPPED
outcome whose error is the fixed text `Missing required fields` (the
per-field detail goes to the process log only), and no transport send is
attempted for it. -/
theorem C3_amended_skip_no_send (cfg : Config) (fname : String) (rows : List Row)
    (env : TransportEnv) (h : parseRows cfg fname rows = none) :
    stepA cfg { name := fname, content := XlsxFile.doc rows, env := env } =
      ({ file := fname, ritm := "", aide_id := "", aide_name := "", to_email := "",
         status := "SKIPPED", error := "Missing required fields" }, false) := by
  simp [stepA, parse_xlsx, h]

/-- Witness for C3 (amended) on a sheet missing `AIDE_ID`. -/
theorem C3_amended_witness :
    stepA cfgS inNoAide =
      ({ file := "a.xlsx", ritm := "", aide_id := "", aide_name := "", to_email := "",
         status := "SKIPPED", error := "Missing required fields" }, false) :=
  C3_amended_skip_no_send cfgS "a.xlsx" rowsNoAide envAllOk (by decide)

/-- Counterexample to C4: on a row whose first cell is blank, the code
discards the row entirely — the key is read from the first cell, not
from the first non-empty cell — while the claim's reading keeps the
pair. -/
theorem C4_counterexample :
    buildData [rowShifted] = [] ∧
    buildData_spec [rowShifted] = [("RITM", "X")] ∧
    dataGet (buildData [rowShifted]) "RITM" = "" ∧
    dataGet (buildData_spec [rowShifted]) "RITM" = "X" := by
  decide

/-- Lookup after the mapping fold: the value of the last admissible row
bound to the key, else the lookup in the initial mapping. -/
theorem dataGet_foldl (rows : List Row) (init : List (String × String)) (k : String) :
    dataGet (rows.foldl
        (fun data r => if rowAdmissible r then (rowKey r, rowVal r) :: data else data)
        init) k =
      match rows.reverse.find? (fun r => rowAdmissible r && rowKey r == k) with
      | some r => rowVal r
      | none => dataGet init k := by
  induction rows generalizing init with
  | nil => simp
  | cons r t ih =>
      rw [List.foldl_cons, ih]
      rw [List.reverse_cons, List.find?_append]
      cases hf : t.reverse.find? (fun r => rowAdmissible r && rowKey r == k) with
      | some row => simp
      | none =>
          by_cases ha : rowAdmissible r
          · by_cases hk : rowKey r == k
            · simp [ha, hk, dataGet]
            · simp [ha, hk, dataGet]
          · simp [ha]

/-- C4 amended: the mapping binds each key to the value of the LAST
admissible row whose first cell (trimmed, with a blank or absent cell
read as the empty string) equals the key; a row is admissible when its
first cell and second cell are non-empty after trimming and the value is
not the case-insensitive `nan` placeholder; a row whose first cell is
blank is discarded, never re-keyed on a later cell. -/
theorem C4_amended_mapping (rows : List Row) (k : String) :
    dataGet (buildData rows) k =
      match rows.reverse.find? (fun r => rowAdmissible r && rowKey r == k) with
      | some r => rowVal r
      | none => "" := by
  have h := dataGet_foldl rows [] k
  simpa [buildData, dataGet] using h

/-- C7: a failing send for one document yields a FAILED outcome for that
document and leaves every other document's outcome exactly as it would
have been: the run never aborts. -/
theorem C7_transport_failure_isolated (cfg : Config) (pre post : List InputCase)
    (i : InputCase) (r : Record)
    (hp : parse_xlsx cfg i.name i.content = some r)
    (hs : sendOk cfg i.env r = false) :
    mainRun cfg (pre ++ i :: post) =
      mainRun cfg pre ++
        ({ file := r.file, ritm := r.ritm, aide_id := r.aide_id, aide_name := r.aide_name,
           to_email := r.to_email, status := "FAILED", error := "See log" } : Outcome) ::
        mainRun cfg post ∧
    (mainRun cfg (pre ++ i :: post)).length = pre.length + 1 + post.length := by
  have hstep : step cfg i =
      { file := r.file, ritm := r.ritm, aide_id := r.aide_id, aide_name := r.aide_name,
        to_email := r.to_email, status := "FAILED", error := "See log" } := by
    simp [step, stepA, hp, hs]
  constructor
  · simp [mainRun, List.map_append, hstep]
  · simp [mainRun]
    omega

/-- Witness for C7: three documents; the middle one's SMTP conversation
fails, the outer two still receive their own outcomes. -/
theorem C7_witness :
    mainRun cfgS ([inA] ++ inB :: [inC]) =
      mainRun cfgS [inA] ++
        ({ file := recB.file, ritm := recB.ritm, aide_id := recB.aide_id,
           aide_name := recB.aide_name, to_email := recB.to_email,
           status := "FAILED", error := "See log" } : Outcome) ::
        mainRun cfgS [inC] ∧
    (mainRun cfgS ([inA] ++ inB :: [inC])).length = [inA].length + 1 + [inC].length :=
  C7_transport_failure_isolated cfgS [inA] [inC] inB recB (by decide) (by decide)

/-- Counterexample to C8: an unreadable document and a document with
missing required fields are both recorded as SKIPPED with the very same
error text, so the two error kinds are not distinguishable in the
recorded outcomes. -/
theorem C8_counterexample :
    (step cfgS inBad).status = "SKIPPED" ∧
    (step cfgS inBad).error = "Missing required fields" ∧
    (step cfgS inBad).error = (step cfgS inNoAide).error := by
  decide

/-- C8 amended: both failure kinds — open failure and validation failure
— are recorded as SKIPPED with the same fixed error text `Missing
required fields`; only the process log tells them apart. -/
theorem C8_amended_same_error (cfg : Config) (n₁ n₂ : String) (rows : List Row)
    (env₁ env₂ : TransportEnv) (h : parseRows cfg n₂ rows = none) :
    step cfg { name := n₁, content := XlsxFile.unreadable, env := env₁ } =
      { file := n₁, ritm := "", aide_id := "", aide_name := "", to_email := "",
        status := "SKIPPED", error := "Missing required fields" } ∧
    step cfg { name := n₂, content := XlsxFile.doc rows, env := env₂ } =
      { file := n₂, ritm := "", aide_id := "", aide_name := "", to_email := "",
        status := "SKIPPED", error := "Missing required fields" } := by
  constructor
  · simp [step, stepA, parse_xlsx]
  · simp [step, stepA, parse_xlsx, h]

/-- Witness for C8 (amended) with an unreadable file and a sheet missing
`RITM`. -/
theorem C8_amended_witness :
    step cfgS inBad =
      { file := "bad.xlsx", ritm := "", aide_id := "", aide_name := "", to_email := "",
        status := "SKIPPED", error := "Missing required fields" } ∧
    step cfgS inNoRitm =
      { file := "b.xlsx", ritm := "", aide_id := "", aide_name := "", to_email := "",
        status := "SKIPPED", error := "Missing required fields" } :=
  C8_amended_same_error cfgS "bad.xlsx" "b.xlsx" rowsNoRitm envAllOk envAllOk (by decide)

/-- Counterexample to C9: with the banner file absent and everything
else available, the SMTP variant still hands off the message (without
the image part) but the Outlook variant's send fails entirely — the two
variants do not behave identically and the Outlook-path message is not
sent. -/
theorem C9_counterexample :
    send_via_outlook { win32_available := true, outlook_ok := true, banner_exists := false }
        cfgS recA = none ∧
    send_via_smtp { banner_exists := false, smtp_ok := true } cfgS recA =
      some { mail_to := "nkelly13@corp.com", cc := none,
             subject := subject_smtp recA, has_banner := false } := by
  decide

/-- C9 amended: when the banner file is absent the SMTP variant degrades
gracefully and sends the message without the image part, but the Outlook
variant never sends — `Attachments.Add` raises and the blanket `except`
turns the whole send into a failure. -/
theorem C9_amended_banner_absent (cfg : Config) (r : Record) (oe : OutlookEnv)
    (se : SmtpEnv) (ho : oe.banner_exists = false) (hb : se.banner_exists = false)
    (hs : se.smtp_ok = true) :
    send_via_outlook oe cfg r = none ∧
    send_via_smtp se cfg r =
      some { mail_to := r.to_email,
             cc := if cfg.CC_EMAIL ≠ "" then some cfg.CC_EMAIL else none,
             subject := subject_smtp r, has_banner := false } := by
  constructor
  · unfold send_via_outlook
    cases hw : oe.win32_available <;> cases hk : oe.outlook_ok <;> simp [ho, hw, hk]
  · simp [send_via_smtp, hb, hs]

/-- Witness for C9 (amended): banner absent, SMTP healthy. -/
theorem C9_amended_witness :
    send_via_outlook { win32_available := true, outlook_ok := true, banner_exists := false }
        cfgS recB = none ∧
    send_via_smtp { banner_exists := false, smtp_ok := true } cfgS recB =
      some { mail_to := recB.to_email,
             cc := if cfgS.CC_EMAIL ≠ "" then some cfgS.CC_EMAIL else none,
             subject := subject_smtp recB, has_banner := false } :=
  C9_amended_banner_absent cfgS recB
    { win32_available := true, outlook_ok := true, banner_exists := false }
    { banner_exists := false, smtp_ok := true } rfl rfl rfl

end Orbit
